import Mathlib

/-!
Shallow embedding of the Whitted-style ray tracer in src/index.html
(the inline script is the canonical implementation per the design notes;
src/lighting.js is the unused legacy module).  JavaScript numbers are
modelled as real numbers; gl-matrix vec3 values as `Vec3`.  The JS
`refract` declares `cosi` with `const` and then reassigns it inside the
`cosi < 0` branch, which raises a TypeError at runtime; fallible paths
are therefore modelled with `Option`, `none` standing for a thrown
exception.
-/

namespace Raytrace

noncomputable section

/-- A gl-matrix `vec3`: three real components. -/
@[ext]
structure Vec3 where
  x : ℝ
  y : ℝ
  z : ℝ
deriving Inhabited

/-- An RGB triple `{r, g, b}` as used throughout the lighting code. -/
@[ext]
structure Color where
  r : ℝ
  g : ℝ
  b : ℝ
deriving Inhabited

/-- `add(a, b)` - componentwise vector addition (gl-matrix `vec3.add`). -/
def add (a b : Vec3) : Vec3 := ⟨a.x + b.x, a.y + b.y, a.z + b.z⟩

/-- `subtract(a, b)` - componentwise vector subtraction. -/
def subtract (a b : Vec3) : Vec3 := ⟨a.x - b.x, a.y - b.y, a.z - b.z⟩

/-- `scale(v, s)` - scale a vector by a scalar. -/
def scale (v : Vec3) (s : ℝ) : Vec3 := ⟨v.x * s, v.y * s, v.z * s⟩

/-- `dot(a, b)` - inner product. -/
def dot (a b : Vec3) : ℝ := a.x * b.x + a.y * b.y + a.z * b.z

/-- `length(v)` - Euclidean length (gl-matrix `vec3.length`). -/
def length (v : Vec3) : ℝ := Real.sqrt (dot v v)

/-- `normalize(v)` - gl-matrix `vec3.normalize`: computes the squared
length, inverts its square root only when it is positive, and scales;
the zero vector is mapped to itself (scaled by the zero length). -/
def normalize (v : Vec3) : Vec3 :=
  let len := dot v v
  if 0 < len then scale v (1 / Real.sqrt len) else scale v len

/-- `reflect(incident, normal)` from the inline lighting code:
`incident - 2 * dot(incident, normal) * normal`. -/
def reflect (incident normal : Vec3) : Vec3 :=
  subtract incident (scale normal (2 * dot incident normal))

/-- The `cosi` computed at the top of `refract`:
`-Math.min(Math.max(dot(incident, normal), -1.0), 1.0)`. -/
def cosiOf (incident normal : Vec3) : ℝ :=
  -(min (max (dot incident normal) (-1)) 1)

/-- `refract(incident, normal, ior)` from src/index.html.  The source
declares `const cosi` and then executes `cosi = -cosi` inside the
`cosi < 0` branch; reassigning a `const` binding raises a TypeError
before any value is produced, so that branch is modelled as `none`.
On the non-throwing path (`cosi ≥ 0`) the indices stay `etai = 1`,
`etat = ior` and the normal is left unflipped, exactly as in the
source. -/
def refract (incident normal : Vec3) (ior : ℝ) : Option Vec3 :=
  let cosi := cosiOf incident normal
  if cosi < 0 then
    none
  else
    let etai : ℝ := 1
    let etat : ℝ := ior
    let eta := etai / etat
    let k := 1 - eta * eta * (1 - cosi * cosi)
    if k < 0 then
      some (reflect incident normal)
    else
      some (add (scale incident eta) (scale normal (eta * cosi - Real.sqrt k)))

/-- `Material` as stored on scene objects (post-construction). -/
structure Material where
  ambient : Color
  diffuse : Color
  specular : Color
  shininess : ℝ
  reflectivity : ℝ
  transparency : ℝ
  ior : ℝ
  isRefractive : Bool
deriving Inhabited

/-- `Light` as stored in the lights list (post-construction). -/
structure Light where
  position : Vec3
  ambient : Color
  diffuse : Color
  specular : Color
deriving Inhabited

/-- `Ray` - origin plus direction. -/
structure Ray where
  origin : Vec3
  direction : Vec3

/-- The data carried by a constructed `Sphere`. -/
structure SphereData where
  center : Vec3
  radius : ℝ
  material : Material

/-- The data carried by a constructed `Plane` (`normal` is the value
stored by the constructor, i.e. already normalized). -/
structure PlaneData where
  point : Vec3
  normal : Vec3
  material : Material

/-- A scene object: the source dispatches on `instanceof Sphere` /
`instanceof Plane`. -/
inductive Object where
  | sphere : SphereData → Object
  | plane : PlaneData → Object

instance : DecidableEq Object := Classical.decEq _

/-- The material attached to an object. -/
def objMaterial : Object → Material
  | .sphere s => s.material
  | .plane p => p.material

/-- `getNormal` of the hit object (`Sphere.getNormal(point)` /
`Plane.getNormal()`). -/
def objNormalAt (o : Object) (intersectionPoint : Vec3) : Vec3 :=
  match o with
  | .sphere s => normalize (subtract intersectionPoint s.center)
  | .plane p => p.normal

/-- `getIntersectionPoint(ray, t)`: `origin + t * direction`. -/
def getIntersectionPoint (ray : Ray) (t : ℝ) : Vec3 :=
  add ray.origin (scale ray.direction t)

/-- `intersectRaySphere(ray, sphere)`: solves the quadratic and returns
the near root, or `-1` when the discriminant is negative. -/
def intersectRaySphere (ray : Ray) (s : SphereData) : ℝ :=
  let oc := subtract ray.origin s.center
  let a := dot ray.direction ray.direction
  let b := 2 * dot oc ray.direction
  let c := dot oc oc - s.radius * s.radius
  let discriminant := b * b - 4 * a * c
  if discriminant < 0 then -1
  else (-b - Real.sqrt discriminant) / (2 * a)

/-- `intersectRayPlane(ray, plane)`: `-1` for (nearly) parallel rays or
non-positive `t`, otherwise the plane-hit distance. -/
def intersectRayPlane (ray : Ray) (p : PlaneData) : ℝ :=
  let denom := dot ray.direction p.normal
  if |denom| < 0.0001 then -1
  else
    let t := dot (subtract p.point ray.origin) p.normal / denom
    if 0 < t then t else -1

/-- The `instanceof` dispatch performed by `findClosestIntersection`
and `isInShadow`. -/
def intersectObj (ray : Ray) : Object → ℝ
  | .sphere s => intersectRaySphere ray s
  | .plane p => intersectRayPlane ray p

/-- The `{t, object, point}` record returned by
`findClosestIntersection`.  The JS `closestT` starts at `Infinity`, so
`t` is modelled in `EReal` (accepted hits are finite reals). -/
structure IntersectionResult where
  t : EReal
  object : Option Object
  point : Option Vec3

/-- The no-hit sentinel: `closestT = Infinity`, no object, no point. -/
def noHit : IntersectionResult := ⟨⊤, none, none⟩

/-- The `for (const object of objects)` loop of
`findClosestIntersection`: a hit replaces the accumulator when
`t > 0.001 && t < closestT`. -/
def findClosestAux (ray : Ray) : List Object → IntersectionResult → IntersectionResult
  | [], acc => acc
  | obj :: rest, acc =>
      let t := intersectObj ray obj
      findClosestAux ray rest
        (if 0.001 < t ∧ ((t : ℝ) : EReal) < acc.t then
          ⟨((t : ℝ) : EReal), some obj, some (getIntersectionPoint ray t)⟩
        else acc)

/-- `findClosestIntersection(ray, objects)` from src/index.html. -/
def findClosestIntersection (ray : Ray) (objects : List Object) : IntersectionResult :=
  findClosestAux ray objects noHit

/-- The `if (intersection.object) { ... intersection.point ... }`
pattern used by the shading engine: the hit object together with the
hit point. -/
def hitOf (ray : Ray) (objects : List Object) : Option (Object × Vec3) :=
  match (findClosestIntersection ray objects).object, (findClosestIntersection ray objects).point with
  | some o, some p => some (o, p)
  | _, _ => none

/-- The shadow ray built by `isInShadow`: origin offset by
`0.001 * lightDir` from the shaded point, aimed at the light. -/
def shadowRayOf (point lightPos : Vec3) : Ray :=
  let lightDir := normalize (subtract lightPos point)
  ⟨add point (scale lightDir 0.001), lightDir⟩

/-- The occluder loop of `isInShadow` (src/index.html lines 349-387).
JS reference equality against `currentObject` is modelled as equality
of the object data; the per-occluder policy is translated verbatim:
transparency ≥ 0.9 falls through to the next occluder, any other
occluder with transparency > 0 hitting in range returns
`transparency < 0.5`, and an opaque occluder hitting in range returns
`true`. -/
def shadowScan (shadowRay : Ray) (distanceToLight : ℝ) (currentObject : Option Object) :
    List Object → Bool
  | [] => false
  | obj :: rest =>
      if some obj = currentObject then
        shadowScan shadowRay distanceToLight currentObject rest
      else if 0 < (objMaterial obj).transparency then
        let t := intersectObj shadowRay obj
        if 0.001 < t ∧ t < distanceToLight then
          if 0.9 ≤ (objMaterial obj).transparency then
            shadowScan shadowRay distanceToLight currentObject rest
          else if (objMaterial obj).transparency < 0.5 then true else false
        else shadowScan shadowRay distanceToLight currentObject rest
      else
        let t := intersectObj shadowRay obj
        if 0.001 < t ∧ t < distanceToLight then true
        else shadowScan shadowRay distanceToLight currentObject rest

/-- `isInShadow(point, lightPos, objects, currentObject)` from
src/index.html. -/
def isInShadow (point lightPos : Vec3) (objects : List Object) (currentObject : Option Object) : Bool :=
  shadowScan (shadowRayOf point lightPos) (length (subtract lightPos point)) currentObject objects

/-- Componentwise color sum (the `finalColor.r += ...` accumulations). -/
def addColor (a b : Color) : Color := ⟨a.r + b.r, a.g + b.g, a.b + b.b⟩

/-- A color scaled by a factor (e.g. `reflectionColor.r * fresnel`). -/
def scaleColor (c : Color) (s : ℝ) : Color := ⟨c.r * s, c.g * s, c.b * s⟩

/-- The final `Math.min(finalColor, 1.0)` clamp of
`calculatePhongLighting`. -/
def clampColor (c : Color) : Color := ⟨min c.r 1, min c.g 1, min c.b 1⟩

/-- The background color substituted on a refraction-ray miss:
`{ r: 50/255, g: 50/255, b: 50/255 }`. -/
def backgroundColor : Color := ⟨50 / 255, 50 / 255, 50 / 255⟩

/-- `calculateDiffuse(material, light, normal, lightDir)`. -/
def calculateDiffuse (material : Material) (light : Light) (normal lightDir : Vec3) : Color :=
  let dotProduct := max (dot normal lightDir) 0
  ⟨material.diffuse.r * light.diffuse.r * dotProduct,
    material.diffuse.g * light.diffuse.g * dotProduct,
    material.diffuse.b * light.diffuse.b * dotProduct⟩

/-- `calculateSpecular(material, light, normal, lightDir, viewDir)`:
reflects the negated light direction and raises the clamped dot
product to the (real) shininess exponent. -/
def calculateSpecular (material : Material) (light : Light) (normal lightDir viewDir : Vec3) : Color :=
  let reflectDir := reflect (scale lightDir (-1)) normal
  let spec := (max (dot viewDir reflectDir) 0) ^ material.shininess
  ⟨material.specular.r * light.specular.r * spec,
    material.specular.g * light.specular.g * spec,
    material.specular.b * light.specular.b * spec⟩

/-- The initial `finalColor`: `material.ambient * lights[0].ambient`
componentwise (only the first light contributes ambient). -/
def ambientInit (material : Material) (lights : List Light) : Color :=
  ⟨material.ambient.r * lights.headI.ambient.r,
    material.ambient.g * lights.headI.ambient.g,
    material.ambient.b * lights.headI.ambient.b⟩

/-- The simplified-Fresnel reflectivity of the refractive branch:
`reflectivity + (1 - reflectivity) * (1 - |dot(viewDir, normal)|)^5`. -/
def fresnelReflectivity (material : Material) (viewDir normal : Vec3) : ℝ :=
  material.reflectivity + (1 - material.reflectivity) * (1 - |dot viewDir normal|) ^ 5

/-- Reflection step of the refractive branch (src/index.html lines
421-460): guarded by `fresnel > 0`; on a hit the recursive color is
added scaled by the Fresnel reflectivity, a miss contributes nothing. -/
def reflStage (material : Material) (lights : List Light) (normal viewDir point : Vec3)
    (objects : List Object)
    (recur : Material → Vec3 → Vec3 → Vec3 → Option Object → Option Color) : Option Color :=
  let fresnel := fresnelReflectivity material viewDir normal
  let c0 := ambientInit material lights
  if 0 < fresnel then
    let reflectDir := reflect (scale viewDir (-1)) normal
    let reflectRay : Ray := ⟨add point (scale reflectDir 0.001), reflectDir⟩
    match hitOf reflectRay objects with
    | some (obj, ipt) =>
        (recur (objMaterial obj) (objNormalAt obj ipt)
            (normalize (subtract reflectRay.origin ipt)) ipt (some obj)).map
          (fun rc => addColor c0 (scaleColor rc fresnel))
    | none => some c0
  else some c0

/-- Refraction step of the refractive branch (src/index.html lines
462-508): guarded by `refractFactor = 1 - fresnel > 0`; `refract` may
throw (modelled `none`); a hit adds the recursive color scaled by
`transparency * refractFactor`, a miss adds the background color
scaled the same way. -/
def refrStage (material : Material) (normal viewDir point : Vec3) (objects : List Object)
    (recur : Material → Vec3 → Vec3 → Vec3 → Option Object → Option Color)
    (c1 : Color) : Option Color :=
  let fresnel := fresnelReflectivity material viewDir normal
  let refractFactor := 1 - fresnel
  if 0 < refractFactor then
    (refract (scale viewDir (-1)) normal material.ior).bind (fun refractDir =>
      let refractRay : Ray := ⟨add point (scale refractDir 0.001), refractDir⟩
      match hitOf refractRay objects with
      | some (obj, ipt) =>
          (recur (objMaterial obj) (objNormalAt obj ipt)
              (normalize (subtract refractRay.origin ipt)) ipt (some obj)).map
            (fun rc => addColor c1 (scaleColor rc (material.transparency * refractFactor)))
      | none => some (addColor c1 (scaleColor backgroundColor (material.transparency * refractFactor))))
  else some c1

/-- Specular-only loop of the refractive branch (src/index.html lines
510-522): every light adds `0.5 * specular`, with no shadow test and
no diffuse term. -/
def specStage (material : Material) (lights : List Light) (normal viewDir point : Vec3)
    (c2 : Color) : Color :=
  lights.foldl (fun acc light =>
    let lightDir := normalize (subtract light.position point)
    addColor acc (scaleColor (calculateSpecular material light normal lightDir viewDir) 0.5)) c2

/-- Branch A of `calculatePhongLighting` (refractive/transparent
material), before the final clamp. -/
def refractiveShade (material : Material) (lights : List Light) (normal viewDir point : Vec3)
    (objects : List Object)
    (recur : Material → Vec3 → Vec3 → Vec3 → Option Object → Option Color) : Option Color :=
  (reflStage material lights normal viewDir point objects recur).bind (fun c1 =>
    (refrStage material normal viewDir point objects recur c1).map
      (specStage material lights normal viewDir point))

/-- The per-light loop of the opaque branch (src/index.html lines
525-546): a light in shadow is skipped, otherwise diffuse plus
specular is added. -/
def shadowedLightsFold (material : Material) (lights : List Light) (normal viewDir point : Vec3)
    (objects : List Object) (currentObject : Option Object) (c0 : Color) : Color :=
  lights.foldl (fun acc light =>
    let lightDir := normalize (subtract light.position point)
    if isInShadow point light.position objects currentObject then acc
    else
      addColor acc (addColor (calculateDiffuse material light normal lightDir)
        (calculateSpecular material light normal lightDir viewDir))) c0

/-- Reflection step of the opaque branch (src/index.html lines
548-587): guarded by `reflectivity > 0 && depth < 5`; on a hit the
recursive color is added scaled by the flat reflectivity. -/
def opaqueReflStage (material : Material) (normal viewDir point : Vec3) (objects : List Object)
    (depth : ℕ)
    (recur : Material → Vec3 → Vec3 → Vec3 → Option Object → Option Color)
    (c1 : Color) : Option Color :=
  if 0 < material.reflectivity ∧ depth < 5 then
    let reflectDir := reflect (scale viewDir (-1)) normal
    let reflectRay : Ray := ⟨add point (scale reflectDir 0.001), reflectDir⟩
    match hitOf reflectRay objects with
    | some (obj, ipt) =>
        (recur (objMaterial obj) (objNormalAt obj ipt)
            (normalize (subtract reflectRay.origin ipt)) ipt (some obj)).map
          (fun rc => addColor c1 (scaleColor rc material.reflectivity))
    | none => some c1
  else some c1

/-- Branch B of `calculatePhongLighting` (opaque/standard material),
before the final clamp.  This branch computes no refraction ray:
`refract` does not occur in it or in anything it calls. -/
def opaqueShade (material : Material) (lights : List Light) (normal viewDir point : Vec3)
    (objects : List Object) (currentObject : Option Object) (depth : ℕ)
    (recur : Material → Vec3 → Vec3 → Vec3 → Option Object → Option Color) : Option Color :=
  opaqueReflStage material normal viewDir point objects depth recur
    (shadowedLightsFold material lights normal viewDir point objects currentObject
      (ambientInit material lights))

/-- `calculatePhongLighting(material, lights, normal, viewDir, point,
objects, currentObject, depth)` from src/index.html.  `MAX_DEPTH = 5`:
a call with `depth > 5` returns black immediately; every recursive
call passes `depth + 1`, so the well-founded recursion on `6 - depth`
below is exactly the termination argument of the source.  The result
is `none` when the underlying JS would throw (the `refract` const
reassignment). -/
def calculatePhongLighting (material : Material) (lights : List Light)
    (normal viewDir point : Vec3) (objects : List Object) (currentObject : Option Object)
    (depth : ℕ) : Option Color :=
  if h5 : 5 < depth then some ⟨0, 0, 0⟩
  else
    Option.map clampColor
      (if material.isRefractive = true ∧ 0 < material.transparency then
        refractiveShade material lights normal viewDir point objects
          (fun m n v p o => calculatePhongLighting m lights n v p objects o (depth + 1))
      else
        opaqueShade material lights normal viewDir point objects currentObject depth
          (fun m n v p o => calculatePhongLighting m lights n v p objects o (depth + 1)))
termination_by 6 - depth
decreasing_by all_goals omega

/-! Construction-time validation.  Missing constructor arguments are
`none`; a thrown `new Error(...)` is `Except.error` with the message.
JS truthiness: an object argument is falsy only when missing, a number
argument is falsy when missing or zero, a boolean argument is falsy
when missing or `false`. -/

/-- `x || d` for a JS number option: the default replaces a missing or
zero (falsy) value. -/
def jsOrNum (x : Option ℝ) (d : ℝ) : ℝ :=
  match x with
  | none => d
  | some v => if v = 0 then d else v

/-- The `Material` constructor (src/index.html lines 257-273),
including the `shininess || 32.0` default and the falsy-defaulted
optional properties. -/
def mkMaterial (ambient diffuse specular : Option Color) (shininess : Option ℝ)
    (reflectivity transparency ior : Option ℝ) (refractiveFlag : Option Bool) :
    Except String Material :=
  match ambient, diffuse, specular with
  | some a, some d, some s =>
      Except.ok
        { ambient := a, diffuse := d, specular := s
          shininess := jsOrNum shininess 32
          reflectivity := jsOrNum reflectivity 0
          transparency := jsOrNum transparency 0
          ior := jsOrNum ior 1
          isRefractive := refractiveFlag.getD false }
  | _, _, _ => Except.error "Material requires ambient, diffuse, and specular properties"

/-- The `Light` constructor (src/index.html lines 276-286) with its
defaulted color triples. -/
def mkLight (position : Option Vec3) (ambient diffuse specular : Option Color) :
    Except String Light :=
  match position with
  | some p =>
      Except.ok ⟨p, ambient.getD ⟨0.2, 0.2, 0.2⟩, diffuse.getD ⟨0.8, 0.8, 0.8⟩,
        specular.getD ⟨1, 1, 1⟩⟩
  | none => Except.error "Light requires position"

/-- The `Sphere` constructor (src/index.html lines 130-138): the
source checks `!center || !radius`, so a radius of exactly `0` (falsy)
is rejected while any non-zero radius - negative included - is
accepted. -/
def mkSphere (center : Option Vec3) (radius : Option ℝ) (material : Material) :
    Except String SphereData :=
  match center, radius with
  | some c, some r =>
      if r = 0 then Except.error "Sphere requires center and radius"
      else Except.ok ⟨c, r, material⟩
  | _, _ => Except.error "Sphere requires center and radius"

/-- The `Plane` constructor (src/index.html lines 158-166): requires a
point and a normal, and stores the normalized normal. -/
def mkPlane (point normal : Option Vec3) (material : Material) : Except String PlaneData :=
  match point, normal with
  | some p, some n => Except.ok ⟨p, normalize n, material⟩
  | _, _ => Except.error "Plane requires point and normal"

/-- A construction that fails fast (a thrown `Error`). -/
def constructionFails {α : Type} (e : Except String α) : Prop :=
  ∃ msg, e = Except.error msg

/-! Well-formedness predicates used by the range claims. -/

/-- All channels non-negative. -/
def NonnegColor (c : Color) : Prop := 0 ≤ c.r ∧ 0 ≤ c.g ∧ 0 ≤ c.b

/-- All channels in `[0, 1]`. -/
def InUnitInterval (c : Color) : Prop :=
  (0 ≤ c.r ∧ c.r ≤ 1) ∧ (0 ≤ c.g ∧ c.g ≤ 1) ∧ (0 ≤ c.b ∧ c.b ≤ 1)

/-- A material built from non-negative inputs: non-negative color
components, reflectivity and transparency in `[0, 1]`, positive
shininess. -/
def MaterialOK (m : Material) : Prop :=
  NonnegColor m.ambient ∧ NonnegColor m.diffuse ∧ NonnegColor m.specular ∧
    0 ≤ m.reflectivity ∧ m.reflectivity ≤ 1 ∧
    0 ≤ m.transparency ∧ m.transparency ≤ 1 ∧ 0 < m.shininess

/-- A light with non-negative color components. -/
def LightOK (l : Light) : Prop :=
  NonnegColor l.ambient ∧ NonnegColor l.diffuse ∧ NonnegColor l.specular

/-! Concrete scene data for witnesses and counterexamples. -/

/-- A plain opaque gray material (reflectivity 0, transparency 0). -/
def wMat : Material :=
  ⟨⟨0.1, 0.1, 0.1⟩, ⟨0.1, 0.1, 0.1⟩, ⟨0.1, 0.1, 0.1⟩, 32, 0, 0, 1, false⟩

/-- A light placed at the origin with all channels 0.5. -/
def wLight : Light := ⟨⟨0, 0, 0⟩, ⟨0.5, 0.5, 0.5⟩, ⟨0.5, 0.5, 0.5⟩, ⟨0.5, 0.5, 0.5⟩⟩

/-- A refractive material whose transparency 0.6 lies in `[0.5, 0.9)`. -/
def glassMat06 : Material :=
  ⟨⟨0.1, 0.1, 0.1⟩, ⟨0.1, 0.1, 0.1⟩, ⟨0.9, 0.9, 0.9⟩, 128, 0.2, 0.6, 1.5, true⟩

/-- Mid-transparency occluder for the shadow scan: the plane `z = 5`. -/
def glassPlaneC1 : Object := .plane ⟨⟨0, 0, 5⟩, ⟨0, 0, 1⟩, glassMat06⟩

/-- Opaque occluder behind it: the plane `z = 7`. -/
def opaquePlaneC1 : Object := .plane ⟨⟨0, 0, 7⟩, ⟨0, 0, 1⟩, wMat⟩

/-- An opaque plane `z = 5` for the resolver witness. -/
def planeC5 : Object := .plane ⟨⟨0, 0, 5⟩, ⟨0, 0, 1⟩, wMat⟩

/-- A ray from the origin along `+z` for the resolver witness. -/
def rayC5 : Ray := ⟨⟨0, 0, 0⟩, ⟨0, 0, 1⟩⟩

/-! Helper lemmas. -/

/-- When the incident direction does not point along the normal
(`dot ≤ 0`, the entering side), the `cosi` of `refract` is
non-negative, so the throwing branch is not taken. -/
lemma cosiOf_nonneg {incident normal : Vec3} (h : dot incident normal ≤ 0) :
    0 ≤ cosiOf incident normal := by
  unfold cosiOf
  have h1 : max (dot incident normal) (-1) ≤ 0 := max_le h (by norm_num)
  have h2 : min (max (dot incident normal) (-1)) 1 ≤ 0 :=
    le_trans (min_le_left _ _) h1
  linarith

/-- Evaluation of `cosiOf` on the concrete exiting configuration
`incident = normal = (0,0,1)`. -/
lemma cosiOf_unit_unit : cosiOf ⟨0, 0, 1⟩ ⟨0, 0, 1⟩ = -1 := by
  unfold cosiOf dot
  norm_num

/-! C2 - the exiting-ray branch of `refract`. -/

/-- C2: the claim states that for `cosi < 0` (a ray exiting the
medium) `refract` negates `cosi`, swaps the refractive indices, flips
the normal and returns the refracted vector.  The code instead
reassigns the `const` binding `cosi`, which raises a TypeError, so no
vector is ever produced on this branch: at the failing input
`incident = normal = (0,0,1)`, `ior = 1.5` the call throws (modelled
as `none`). -/
theorem refract_exiting_ray_throws :
    refract ⟨0, 0, 1⟩ ⟨0, 0, 1⟩ (3 / 2) = none := by
  simp only [refract, cosiOf_unit_unit]
  norm_num

/-! C6 - total internal reflection. -/

/-- C6 counterexample: at `incident = (0,0,1)`, `normal = (0,0,1/2)`,
`ior = 2` the discriminant of the refraction equation (with the
swapped indices the claim describes, `eta = 2`) is `1 - 4·(3/4) = -2 < 0`,
yet `refract` does not return `reflect(incident, normal)`: the
`cosi < 0` path throws before reaching the total-internal-reflection
fallback. -/
theorem refract_tir_claim_cex :
    1 - 2 * 2 * (1 - cosiOf ⟨0, 0, 1⟩ ⟨0, 0, (1 : ℝ) / 2⟩ *
        cosiOf ⟨0, 0, 1⟩ ⟨0, 0, (1 : ℝ) / 2⟩) < 0 ∧
    refract ⟨0, 0, 1⟩ ⟨0, 0, (1 : ℝ) / 2⟩ 2 ≠
      some (reflect ⟨0, 0, 1⟩ ⟨0, 0, (1 : ℝ) / 2⟩) := by
  have hc : cosiOf ⟨0, 0, 1⟩ ⟨0, 0, (1 : ℝ) / 2⟩ = -(1 / 2) := by
    unfold cosiOf dot
    norm_num
  constructor
  · rw [hc]; norm_num
  · intro hcon
    simp only [refract, hc] at hcon
    norm_num at hcon
    exact Option.noConfusion hcon

/-- C6 (amended): when the ray is on the entering side
(`dot(incident, normal) ≤ 0`, so the throwing `cosi < 0` branch is not
taken) and the discriminant `k = 1 - eta²·(1 - cosi²)` with
`eta = 1/ior` is negative, `refract` returns exactly
`reflect(incident, normal)` on the original incident/normal pair, as
an ordinary return value. -/
theorem refract_total_internal_reflection (incident normal : Vec3) (ior : ℝ)
    (hside : dot incident normal ≤ 0)
    (hk : 1 - 1 / ior * (1 / ior) * (1 - cosiOf incident normal * cosiOf incident normal) < 0) :
    refract incident normal ior = some (reflect incident normal) := by
  have hc : 0 ≤ cosiOf incident normal := cosiOf_nonneg hside
  simp only [refract]
  split_ifs with h1
  · exact absurd h1 (not_lt.mpr hc)
  · rfl

/-- C6 witness: at `incident = (0,0,1)`, `normal = (0,0,-1/2)`,
`ior = 1/2` the hypotheses hold (`dot = -1/2 ≤ 0`,
`k = 1 - 4·(3/4) = -2 < 0`) and `refract` returns the reflect
fallback. -/
theorem refract_total_internal_reflection_witness :
    refract ⟨0, 0, 1⟩ ⟨0, 0, -(1 / 2)⟩ (1 / 2) =
      some (reflect ⟨0, 0, 1⟩ ⟨0, 0, -(1 / 2)⟩) := by
  have hc : cosiOf ⟨0, 0, 1⟩ ⟨0, 0, -(1 / 2 : ℝ)⟩ = 1 / 2 := by
    unfold cosiOf dot
    norm_num
  exact refract_total_internal_reflection _ _ _ (by unfold dot; norm_num)
    (by rw [hc]; norm_num)

/-! C9 - `refract` with matched indices. -/

/-- C9 counterexample: `refract(v, n, 1.0)` does not return `v` for
`v = n = (0,0,1)` (unit vectors): `cosi = -1 < 0`, so the call throws
(the `const cosi` reassignment) instead of returning a vector. -/
theorem refract_ior_one_cex :
    refract ⟨0, 0, 1⟩ ⟨0, 0, 1⟩ 1 ≠ some ⟨0, 0, 1⟩ := by
  intro hcon
  simp only [refract, cosiOf_unit_unit] at hcon
  norm_num at hcon
  exact Option.noConfusion hcon

/-- C9 (amended): for incident `v` and normal `n` on the entering side
(`dot(v, n) ≤ 0`, so the throwing `cosi < 0` branch is not taken),
`refract(v, n, 1.0)` returns exactly `v`: with `eta = 1` the
discriminant is `cosi²` and the normal coefficient
`eta·cosi - sqrt(k)` vanishes. -/
theorem refract_ior_one_identity (v n : Vec3) (h : dot v n ≤ 0) :
    refract v n 1 = some v := by
  have hc : 0 ≤ cosiOf v n := cosiOf_nonneg h
  simp only [refract]
  rw [if_neg (not_lt.mpr hc)]
  have hkeq : 1 - 1 / (1 : ℝ) * (1 / 1) * (1 - cosiOf v n * cosiOf v n) =
      cosiOf v n ^ 2 := by ring
  rw [if_neg (by rw [hkeq]; exact not_lt.mpr (sq_nonneg _))]
  rw [hkeq, Real.sqrt_sq hc]
  congr 1
  ext <;> simp [add, scale]

/-- C9 witness: `refract((0,0,1), (0,0,-1), 1.0) = (0,0,1)`. -/
theorem refract_ior_one_identity_witness :
    refract ⟨0, 0, 1⟩ ⟨0, 0, -1⟩ 1 = some ⟨0, 0, 1⟩ :=
  refract_ior_one_identity _ _ (by unfold dot; norm_num)

/-! C10 - the Fresnel blend weights. -/

/-- C10: for reflectivity in `[0,1]` and `|dot(viewDir, normal)| ≤ 1`
(as holds for unit vectors), the Fresnel-approximated reflectivity
lies in `[0,1]`, the refraction weight `1 - fresnel` is non-negative,
and the two blend weights sum to exactly 1. -/
theorem fresnel_weights_sum_to_one (material : Material) (viewDir normal : Vec3)
    (h0 : 0 ≤ material.reflectivity) (h1 : material.reflectivity ≤ 1)
    (hd : |dot viewDir normal| ≤ 1) :
    0 ≤ fresnelReflectivity material viewDir normal ∧
    fresnelReflectivity material viewDir normal ≤ 1 ∧
    0 ≤ 1 - fresnelReflectivity material viewDir normal ∧
    fresnelReflectivity material viewDir normal +
      (1 - fresnelReflectivity material viewDir normal) = 1 := by
  have ha : 0 ≤ |dot viewDir normal| := abs_nonneg _
  have he0 : 0 ≤ (1 - |dot viewDir normal|) ^ 5 := pow_nonneg (by linarith) 5
  have he1 : (1 - |dot viewDir normal|) ^ 5 ≤ 1 := pow_le_one₀ (by linarith) (by linarith)
  unfold fresnelReflectivity
  refine ⟨add_nonneg h0 (mul_nonneg (by linarith) he0), ?_, ?_, by ring⟩
  · nlinarith
  · nlinarith

/-- C10 witness: for the glass material (reflectivity 0.2) and
`viewDir = normal = (0,0,1)` the weights are well-formed. -/
theorem fresnel_weights_sum_to_one_witness :
    0 ≤ fresnelReflectivity glassMat06 ⟨0, 0, 1⟩ ⟨0, 0, 1⟩ ∧
    fresnelReflectivity glassMat06 ⟨0, 0, 1⟩ ⟨0, 0, 1⟩ ≤ 1 ∧
    0 ≤ 1 - fresnelReflectivity glassMat06 ⟨0, 0, 1⟩ ⟨0, 0, 1⟩ ∧
    fresnelReflectivity glassMat06 ⟨0, 0, 1⟩ ⟨0, 0, 1⟩ +
      (1 - fresnelReflectivity glassMat06 ⟨0, 0, 1⟩ ⟨0, 0, 1⟩) = 1 :=
  fresnel_weights_sum_to_one glassMat06 ⟨0, 0, 1⟩ ⟨0, 0, 1⟩ (by norm_num [glassMat06])
    (by norm_num [glassMat06]) (by unfold dot; norm_num)

/-! C8 - construction-time validation. -/

/-- C8 counterexample: a `Sphere` with radius `-1` is accepted - the
source checks `!center || !radius`, and `-1` is truthy - so
construction with a non-positive radius is not always a failure. -/
theorem sphere_negative_radius_accepted :
    mkSphere (some ⟨0, 0, 0⟩) (some (-1)) wMat = Except.ok ⟨⟨0, 0, 0⟩, -1, wMat⟩ := by
  unfold mkSphere
  norm_num

/-- C8 (amended): construction fails fast exactly on: a `Material`
missing ambient, diffuse or specular; a `Light` missing its position;
a `Sphere` missing its center or with a missing or zero (falsy)
radius - a negative radius is accepted; a `Plane` missing its point or
normal.  Each failure message names the missing field. -/
theorem construction_validation :
    (∀ (a d s : Option Color) (sh rf tr io : Option ℝ) (fl : Option Bool),
        constructionFails (mkMaterial a d s sh rf tr io fl) ↔
          a = none ∨ d = none ∨ s = none) ∧
    (∀ (p : Option Vec3) (a d s : Option Color),
        constructionFails (mkLight p a d s) ↔ p = none) ∧
    (∀ (c : Option Vec3) (r : Option ℝ) (m : Material),
        constructionFails (mkSphere c r m) ↔ c = none ∨ r = none ∨ r = some 0) ∧
    (∀ (pt nrm : Option Vec3) (m : Material),
        constructionFails (mkPlane pt nrm m) ↔ pt = none ∨ nrm = none) := by
  refine ⟨?_, ?_, ?_, ?_⟩
  · intro a d s sh rf tr io fl
    rcases a with _ | a <;> rcases d with _ | d <;> rcases s with _ | s <;>
      simp [mkMaterial, constructionFails]
  · intro p a d s
    rcases p with _ | p <;> simp [mkLight, constructionFails]
  · intro c r m
    rcases c with _ | c <;> rcases r with _ | r <;>
      simp only [mkSphere, constructionFails]
    · simp
    · simp
    · simp
    · by_cases hr : r = 0
      · subst hr; simp
      · rw [if_neg hr]
        simp [hr]
  · intro pt nrm m
    rcases pt with _ | pt <;> rcases nrm with _ | nrm <;> simp [mkPlane, constructionFails]

/-- C8 witness: a `Sphere` without a center fails. -/
theorem construction_validation_witness :
    constructionFails (mkSphere none (some 1) wMat) :=
  (construction_validation.2.2.1 none (some 1) wMat).mpr (Or.inl rfl)

/-! C5 - the scene intersection resolver. -/

/-- Invariant of the `findClosestIntersection` loop after scanning the
objects `S`: either nothing qualified and the accumulator is still the
sentinel, or the accumulator records a qualifying hit of some scanned
object; in both cases its `t` is a lower bound of all qualifying
distances seen so far. -/
def ScanInv (ray : Ray) (S : List Object) (acc : IntersectionResult) : Prop :=
  ((acc = noHit ∧ ∀ o ∈ S, ¬ 0.001 < intersectObj ray o) ∨
    (∃ o ∈ S, acc.object = some o ∧
      acc.t = ((intersectObj ray o : ℝ) : EReal) ∧ 0.001 < intersectObj ray o ∧
      acc.point = some (getIntersectionPoint ray (intersectObj ray o)))) ∧
  ∀ o ∈ S, 0.001 < intersectObj ray o → acc.t ≤ ((intersectObj ray o : ℝ) : EReal)

/-- The resolver loop preserves `ScanInv`. -/
lemma findClosestAux_inv (ray : Ray) :
    ∀ (l S : List Object) (acc : IntersectionResult),
      ScanInv ray S acc → ScanInv ray (S ++ l) (findClosestAux ray l acc) := by
  intro l
  induction l with
  | nil => intro S acc h; simpa using h
  | cons obj rest ih =>
    intro S acc h
    rw [show S ++ obj :: rest = (S ++ [obj]) ++ rest by simp]
    simp only [findClosestAux]
    apply ih
    by_cases hc : 0.001 < intersectObj ray obj ∧
        ((intersectObj ray obj : ℝ) : EReal) < acc.t
    · rw [if_pos hc]
      constructor
      · right
        exact ⟨obj, by simp, rfl, rfl, hc.1, rfl⟩
      · intro o ho hq
        rcases List.mem_append.mp ho with ho | ho
        · exact le_trans (le_of_lt hc.2) (h.2 o ho hq)
        · simp only [List.mem_singleton] at ho
          subst ho
          exact le_refl _
    · rw [if_neg hc]
      push_neg at hc
      constructor
      · rcases h.1 with ⟨hacc, hnone⟩ | ⟨o, ho, hrest⟩
        · left
          refine ⟨hacc, fun o ho' => ?_⟩
          rcases List.mem_append.mp ho' with hmem | hmem
          · exact hnone o hmem
          · simp only [List.mem_singleton] at hmem
            subst hmem
            intro hq
            have htop := hc hq
            rw [hacc] at htop
            exact absurd (lt_of_lt_of_le (EReal.coe_lt_top _) htop)
              (lt_irrefl _)
        · exact Or.inr ⟨o, List.mem_append_left _ ho, hrest⟩
      · intro o ho hq
        rcases List.mem_append.mp ho with hmem | hmem
        · exact h.2 o hmem hq
        · simp only [List.mem_singleton] at hmem
          subst hmem
          exact hc hq

/-- `findClosestIntersection` satisfies the scan invariant over the
whole object list. -/
lemma findClosestIntersection_spec (ray : Ray) (objects : List Object) :
    ScanInv ray objects (findClosestIntersection ray objects) := by
  have h0 : ScanInv ray [] noHit := ⟨Or.inl ⟨rfl, by simp⟩, by simp⟩
  simpa using findClosestAux_inv ray objects [] noHit h0

/-- An object reported by the resolver belongs to the scene. -/
lemma findClosest_object_mem {ray : Ray} {objects : List Object} {o : Object}
    (h : (findClosestIntersection ray objects).object = some o) : o ∈ objects := by
  rcases (findClosestIntersection_spec ray objects).1 with ⟨hacc, _⟩ | ⟨o', ho', hobj, _⟩
  · rw [hacc] at h
    exact absurd h (by simp [noHit])
  · rw [hobj] at h
    cases h
    exact ho'

/-- A hit reported through `hitOf` comes from a scene object. -/
lemma hitOf_mem {ray : Ray} {objects : List Object} {obj : Object} {ipt : Vec3}
    (h : hitOf ray objects = some (obj, ipt)) : obj ∈ objects := by
  unfold hitOf at h
  split at h
  · rename_i o p ho hp
    cases h
    exact findClosest_object_mem ho
  · exact absurd h (by simp)

/-- C5: the resolver accepts a hit only when its distance exceeds the
0.001 epsilon; any reported object is a scene member whose qualifying
distance, hit point and `t` are recorded exactly, and that distance is
minimal among all qualifying distances of the list; when a qualifying
hit exists one is reported, and when none qualifies the sentinel
`{t = +infinity, object = none, point = none}` is returned. -/
theorem findClosestIntersection_correct (ray : Ray) (objects : List Object) :
    (∀ o, (findClosestIntersection ray objects).object = some o →
      o ∈ objects ∧ 0.001 < intersectObj ray o ∧
        (findClosestIntersection ray objects).t = ((intersectObj ray o : ℝ) : EReal) ∧
        (findClosestIntersection ray objects).point =
          some (getIntersectionPoint ray (intersectObj ray o)) ∧
        ∀ o' ∈ objects, 0.001 < intersectObj ray o' →
          intersectObj ray o ≤ intersectObj ray o') ∧
    ((∃ o ∈ objects, 0.001 < intersectObj ray o) →
      ∃ o, (findClosestIntersection ray objects).object = some o) ∧
    ((∀ o ∈ objects, ¬ 0.001 < intersectObj ray o) →
      findClosestIntersection ray objects = noHit) := by
  obtain ⟨hmain, hmin⟩ := findClosestIntersection_spec ray objects
  refine ⟨?_, ?_, ?_⟩
  · intro o ho
    rcases hmain with ⟨hacc, _⟩ | ⟨o', ho', hobj, ht, hq, hpt⟩
    · rw [hacc] at ho
      exact absurd ho (by simp [noHit])
    · rw [hobj] at ho
      cases ho
      refine ⟨ho', hq, ht, hpt, fun o'' ho'' hq'' => ?_⟩
      have := hmin o'' ho'' hq''
      rw [ht] at this
      exact_mod_cast this
  · rintro ⟨o, ho, hq⟩
    rcases hmain with ⟨hacc, hnone⟩ | ⟨o', _, hobj, _⟩
    · exact absurd hq (hnone o ho)
    · exact ⟨o', hobj⟩
  · intro hnone
    rcases hmain with ⟨hacc, _⟩ | ⟨o', ho', _, _, hq, _⟩
    · exact hacc
    · exact absurd hq (hnone o' ho')

/-- C5 witness: for the ray from the origin along `+z` and the single
opaque plane `z = 5`, the plane qualifies (`t = 5 > 0.001`) and the
resolver reports it with that distance. -/
theorem findClosestIntersection_correct_witness :
    0.001 < intersectObj rayC5 planeC5 ∧
    (findClosestIntersection rayC5 [planeC5]).t =
      ((intersectObj rayC5 planeC5 : ℝ) : EReal) := by
  have heval : intersectObj rayC5 planeC5 = 5 := by
    unfold intersectObj planeC5 rayC5 intersectRayPlane dot subtract
    norm_num [wMat]
  have hq : 0.001 < intersectObj rayC5 planeC5 := by rw [heval]; norm_num
  have hobj : (findClosestIntersection rayC5 [planeC5]).object = some planeC5 := by
    rcases (findClosestIntersection_correct rayC5 [planeC5]).2.1
        ⟨planeC5, by simp, hq⟩ with ⟨o, ho⟩
    have := findClosest_object_mem ho
    simp only [List.mem_singleton] at this
    rw [this] at ho
    exact ho
  exact ⟨hq, ((findClosestIntersection_correct rayC5 [planeC5]).1 planeC5 hobj).2.2.1⟩

/-! C1 - the `[0.5, 0.9)` transparency rule of `isInShadow`. -/

/-- `sqrt 100 = 10`. -/
lemma sqrt_hundred : Real.sqrt 100 = 10 := by
  rw [show (100 : ℝ) = 10 ^ 2 by norm_num]
  exact Real.sqrt_sq (by norm_num)

/-- The shadow ray from the origin toward the light at `(0,0,10)`. -/
lemma shadowRayEval :
    shadowRayOf ⟨0, 0, 0⟩ ⟨0, 0, 10⟩ = ⟨⟨0, 0, 0.001⟩, ⟨0, 0, 1⟩⟩ := by
  have hdir : normalize (subtract ⟨0, 0, 10⟩ ⟨0, 0, 0⟩) = ⟨0, 0, 1⟩ := by
    simp only [normalize, subtract, dot, scale]
    norm_num [sqrt_hundred]
  unfold shadowRayOf
  rw [hdir]
  simp only [add, scale]
  norm_num

/-- Distance from the origin to the light at `(0,0,10)`. -/
lemma distEval : length (subtract ⟨0, 0, 10⟩ ⟨0, 0, 0⟩) = 10 := by
  simp only [length, subtract, dot]
  norm_num [sqrt_hundred]

/-- The shadow ray hits the mid-transparency plane `z = 5` at
`t = 4.999`. -/
lemma glassTEval :
    intersectObj ⟨⟨0, 0, 0.001⟩, ⟨0, 0, 1⟩⟩ glassPlaneC1 = 4.999 := by
  simp only [glassPlaneC1, intersectObj, intersectRayPlane, dot, subtract]
  norm_num

/-- The shadow ray hits the opaque plane `z = 7` at `t = 6.999`. -/
lemma opaqueTEval :
    intersectObj ⟨⟨0, 0, 0.001⟩, ⟨0, 0, 1⟩⟩ opaquePlaneC1 = 6.999 := by
  simp only [opaquePlaneC1, intersectObj, intersectRayPlane, dot, subtract]
  norm_num

/-- C1 counterexample: with the `[0.5, 0.9)`-transparency plane first
and an opaque occluder behind it (both hitting strictly between the
point and the light), `isInShadow` returns `false` - the
mid-transparency occluder forces "not in shadow" and stops the scan.
Had it deferred to the next occluder as the claim states, the result
would have been `true`, as the second conjunct shows for the opaque
occluder alone. -/
theorem shadow_midrange_claim_cex :
    isInShadow ⟨0, 0, 0⟩ ⟨0, 0, 10⟩ [glassPlaneC1, opaquePlaneC1] none = false ∧
    isInShadow ⟨0, 0, 0⟩ ⟨0, 0, 10⟩ [opaquePlaneC1] none = true := by
  have htr : (objMaterial glassPlaneC1).transparency = 0.6 := rfl
  have htr2 : (objMaterial opaquePlaneC1).transparency = 0 := rfl
  constructor
  · unfold isInShadow
    rw [shadowRayEval, distEval]
    simp only [shadowScan, glassTEval, htr]
    rw [if_neg (by simp)]
    rw [if_pos (by norm_num : (0 : ℝ) < 0.6)]
    rw [if_pos (by constructor <;> norm_num)]
    rw [if_neg (by norm_num : ¬(0.9 : ℝ) ≤ 0.6)]
    rw [if_neg (by norm_num : ¬(0.6 : ℝ) < 0.5)]
  · unfold isInShadow
    rw [shadowRayEval, distEval]
    simp only [shadowScan, opaqueTEval, htr2]
    rw [if_neg (by simp)]
    rw [if_neg (by norm_num : ¬(0 : ℝ) < 0)]
    rw [if_pos (by constructor <;> norm_num)]

/-- C1 (amended): an occluder with transparency in `[0.5, 0.9)` whose
shadow-ray hit lies strictly between the shaded point and the light
does force an outcome: when the scan reaches it, `isInShadow`
immediately returns `false` ("not in shadow"), terminating the scan
without consulting any later occluder.  (It is the transparency ≥ 0.9
case that falls through to the next occluder.) -/
theorem shadow_midrange_forces_not_in_shadow (point lightPos : Vec3) (obj : Object)
    (rest : List Object) (currentObject : Option Object)
    (hne : some obj ≠ currentObject)
    (h05 : 0.5 ≤ (objMaterial obj).transparency)
    (h09 : (objMaterial obj).transparency < 0.9)
    (hhit : 0.001 < intersectObj (shadowRayOf point lightPos) obj ∧
      intersectObj (shadowRayOf point lightPos) obj < length (subtract lightPos point)) :
    isInShadow point lightPos (obj :: rest) currentObject = false := by
  unfold isInShadow
  simp only [shadowScan]
  rw [if_neg hne]
  rw [if_pos (by linarith : (0 : ℝ) < (objMaterial obj).transparency)]
  rw [if_pos hhit]
  rw [if_neg (not_le.mpr h09)]
  rw [if_neg (not_lt.mpr h05)]

/-- C1 witness: the mid-transparency plane `z = 5` alone, hit at
`t = 4.999` strictly inside `(0.001, 10)`, makes `isInShadow` return
`false`. -/
theorem shadow_midrange_forces_not_in_shadow_witness :
    isInShadow ⟨0, 0, 0⟩ ⟨0, 0, 10⟩ [glassPlaneC1] none = false :=
  shadow_midrange_forces_not_in_shadow ⟨0, 0, 0⟩ ⟨0, 0, 10⟩ glassPlaneC1 [] none
    (by simp) (by rw [show (objMaterial glassPlaneC1).transparency = 0.6 from rfl]; norm_num)
    (by rw [show (objMaterial glassPlaneC1).transparency = 0.6 from rfl]; norm_num)
    (by rw [shadowRayEval, glassTEval, distEval]; norm_num)

/-! C3 - the recursion-depth cutoff. -/

/-- Unfolding helper: any call with `depth > 5` returns black before
doing any shading work. -/
lemma calculatePhongLighting_depth_gt {material : Material} {lights : List Light}
    {normal viewDir point : Vec3} {objects : List Object} {currentObject : Option Object}
    {depth : ℕ} (h : 5 < depth) :
    calculatePhongLighting material lights normal viewDir point objects currentObject depth =
      some ⟨0, 0, 0⟩ := by
  rw [calculatePhongLighting]
  rw [dif_pos h]

/-- C3: every argument tuple with `depth > 5` makes
`calculatePhongLighting` return black `(0,0,0)` immediately.  Every
recursive call passes `depth + 1`, which is exactly the measure
`6 - depth` justifying the well-founded definition of
`calculatePhongLighting` above: the function is total for every scene
(mutually facing reflective primitives included), and a trace started
at `depth = 0` performs shading work only at depths `0..5`, i.e. at
most 6 levels. -/
theorem phong_depth_cutoff (material : Material) (lights : List Light)
    (normal viewDir point : Vec3) (objects : List Object) (currentObject : Option Object)
    (depth : ℕ) (h : 5 < depth) :
    calculatePhongLighting material lights normal viewDir point objects currentObject depth =
      some ⟨0, 0, 0⟩ :=
  calculatePhongLighting_depth_gt h

/-- C3 witness: a call at depth 6 returns black. -/
theorem phong_depth_cutoff_witness :
    calculatePhongLighting wMat [wLight] ⟨0, 0, 1⟩ ⟨0, 0, 1⟩ ⟨0, 0, 0⟩ [] none 6 =
      some ⟨0, 0, 0⟩ :=
  phong_depth_cutoff wMat [wLight] ⟨0, 0, 1⟩ ⟨0, 0, 1⟩ ⟨0, 0, 0⟩ [] none 6 (by norm_num)

/-! C7 - no refraction for non-refractive materials. -/

/-- C7: a material with `isRefractive = false` never reaches the
refractive branch: below the depth cutoff the result is exactly the
opaque branch `opaqueShade` (followed by the final clamp), a
computation in which `refract` does not occur - the opaque branch
contains no refraction regardless of the transparency value. -/
theorem opaque_material_no_refraction (material : Material) (lights : List Light)
    (normal viewDir point : Vec3) (objects : List Object) (currentObject : Option Object)
    (depth : ℕ) (h : material.isRefractive = false) :
    calculatePhongLighting material lights normal viewDir point objects currentObject depth =
      if 5 < depth then some ⟨0, 0, 0⟩
      else
        Option.map clampColor
          (opaqueShade material lights normal viewDir point objects currentObject depth
            (fun m n v p o => calculatePhongLighting m lights n v p objects o (depth + 1))) := by
  rw [calculatePhongLighting]
  by_cases hd : 5 < depth
  · rw [dif_pos hd, if_pos hd]
  · rw [dif_neg hd, if_neg hd]
    congr 1
    rw [if_neg (by simp [h])]

/-- C7 witness: the opaque gray material at depth 0 takes the opaque
branch. -/
theorem opaque_material_no_refraction_witness :
    calculatePhongLighting wMat [wLight] ⟨0, 0, 1⟩ ⟨0, 0, 1⟩ ⟨0, 0, 0⟩ [] none 0 =
      if 5 < 0 then some ⟨0, 0, 0⟩
      else
        Option.map clampColor
          (opaqueShade wMat [wLight] ⟨0, 0, 1⟩ ⟨0, 0, 1⟩ ⟨0, 0, 0⟩ [] none 0
            (fun m n v p o => calculatePhongLighting m [wLight] n v p [] o (0 + 1))) :=
  opaque_material_no_refraction wMat [wLight] ⟨0, 0, 1⟩ ⟨0, 0, 1⟩ ⟨0, 0, 0⟩ [] none 0 rfl

/-! C4 - output channels lie in `[0, 1]`. -/

/-- Sums of non-negative colors are non-negative. -/
lemma nonneg_addColor {a b : Color} (ha : NonnegColor a) (hb : NonnegColor b) :
    NonnegColor (addColor a b) :=
  ⟨add_nonneg ha.1 hb.1, add_nonneg ha.2.1 hb.2.1, add_nonneg ha.2.2 hb.2.2⟩

/-- Non-negative scalings of non-negative colors are non-negative. -/
lemma nonneg_scaleColor {c : Color} {s : ℝ} (hc : NonnegColor c) (hs : 0 ≤ s) :
    NonnegColor (scaleColor c s) :=
  ⟨mul_nonneg hc.1 hs, mul_nonneg hc.2.1 hs, mul_nonneg hc.2.2 hs⟩

/-- The background color has non-negative channels. -/
lemma nonneg_backgroundColor : NonnegColor backgroundColor := by
  refine ⟨?_, ?_, ?_⟩ <;> norm_num [backgroundColor]

/-- Clamping a non-negative color lands in `[0, 1]` on every channel. -/
lemma clampColor_unit {c : Color} (h : NonnegColor c) : InUnitInterval (clampColor c) :=
  ⟨⟨le_min h.1 zero_le_one, min_le_right _ _⟩,
    ⟨le_min h.2.1 zero_le_one, min_le_right _ _⟩,
    ⟨le_min h.2.2 zero_le_one, min_le_right _ _⟩⟩

/-- The shared ambient term is non-negative for a well-formed material
and lights. -/
lemma nonneg_ambientInit {material : Material} {lights : List Light}
    (hm : MaterialOK material) (hne : lights ≠ []) (hl : ∀ l ∈ lights, LightOK l) :
    NonnegColor (ambientInit material lights) := by
  have hhead : lights.headI ∈ lights := by
    cases lights with
    | nil => exact absurd rfl hne
    | cons a as => exact List.mem_cons_self _ _
  obtain ⟨⟨g1, g2, g3⟩, _, _⟩ := hl _ hhead
  obtain ⟨⟨h1, h2, h3⟩, _⟩ := hm
  exact ⟨mul_nonneg h1 g1, mul_nonneg h2 g2, mul_nonneg h3 g3⟩

/-- The diffuse term is non-negative. -/
lemma nonneg_calculateDiffuse {material : Material} {light : Light} {normal lightDir : Vec3}
    (hm : MaterialOK material) (hlight : LightOK light) :
    NonnegColor (calculateDiffuse material light normal lightDir) := by
  obtain ⟨_, ⟨h1, h2, h3⟩, _⟩ := hm
  obtain ⟨_, ⟨g1, g2, g3⟩, _⟩ := hlight
  have hd : 0 ≤ max (dot normal lightDir) 0 := le_max_right _ _
  exact ⟨mul_nonneg (mul_nonneg h1 g1) hd, mul_nonneg (mul_nonneg h2 g2) hd,
    mul_nonneg (mul_nonneg h3 g3) hd⟩

/-- The specular term is non-negative (the Phong power has a
non-negative base). -/
lemma nonneg_calculateSpecular {material : Material} {light : Light}
    {normal lightDir viewDir : Vec3} (hm : MaterialOK material) (hlight : LightOK light) :
    NonnegColor (calculateSpecular material light normal lightDir viewDir) := by
  obtain ⟨_, _, ⟨h1, h2, h3⟩, _⟩ := hm
  obtain ⟨_, _, g1, g2, g3⟩ := hlight
  have hs : 0 ≤ (max (dot viewDir (reflect (scale lightDir (-1)) normal)) 0) ^
      material.shininess :=
    Real.rpow_nonneg (le_max_right _ _) _
  exact ⟨mul_nonneg (mul_nonneg h1 g1) hs, mul_nonneg (mul_nonneg h2 g2) hs,
    mul_nonneg (mul_nonneg h3 g3) hs⟩

/-- A left fold whose step preserves channel non-negativity keeps its
accumulator non-negative. -/
lemma foldl_nonneg {α : Type} :
    ∀ (L : List α) (init : Color) (g : Color → α → Color),
      (∀ acc a, a ∈ L → NonnegColor acc → NonnegColor (g acc a)) → NonnegColor init →
      NonnegColor (L.foldl g init) := by
  intro L
  induction L with
  | nil => intro init g _ h0; simpa using h0
  | cons a as ih =>
    intro init g hstep h0
    simp only [List.foldl_cons]
    exact ih _ g (fun acc b hb hacc => hstep acc b (List.mem_cons_of_mem _ hb) hacc)
      (hstep init a (List.mem_cons_self _ _) h0)

/-- The specular-only loop of the refractive branch preserves
non-negativity. -/
lemma nonneg_specStage {material : Material} {lights : List Light}
    {normal viewDir point : Vec3} {c2 : Color}
    (hm : MaterialOK material) (hl : ∀ l ∈ lights, LightOK l) (hc2 : NonnegColor c2) :
    NonnegColor (specStage material lights normal viewDir point c2) := by
  unfold specStage
  refine foldl_nonneg _ _ _ (fun acc light hmem hacc => ?_) hc2
  exact nonneg_addColor hacc
    (nonneg_scaleColor (nonneg_calculateSpecular hm (hl _ hmem)) (by norm_num))

/-- The shadowed per-light loop of the opaque branch preserves
non-negativity. -/
lemma nonneg_shadowedLightsFold {material : Material} {lights : List Light}
    {normal viewDir point : Vec3} {objects : List Object} {currentObject : Option Object}
    {c0 : Color}
    (hm : MaterialOK material) (hl : ∀ l ∈ lights, LightOK l) (hc0 : NonnegColor c0) :
    NonnegColor (shadowedLightsFold material lights normal viewDir point objects
      currentObject c0) := by
  unfold shadowedLightsFold
  refine foldl_nonneg _ _ _ (fun acc light hmem hacc => ?_) hc0
  dsimp only
  split
  · exact hacc
  · exact nonneg_addColor hacc
      (nonneg_addColor (nonneg_calculateDiffuse hm (hl _ hmem))
        (nonneg_calculateSpecular hm (hl _ hmem)))

/-- The reflection step of the refractive branch yields a non-negative
color when the recursive results over scene objects are non-negative. -/
lemma nonneg_reflStage {material : Material} {lights : List Light}
    {normal viewDir point : Vec3} {objects : List Object}
    {recur : Material → Vec3 → Vec3 → Vec3 → Option Object → Option Color}
    (hm : MaterialOK material) (hne : lights ≠ []) (hl : ∀ l ∈ lights, LightOK l)
    (hrec : ∀ obj ∈ objects, ∀ n v p c,
      recur (objMaterial obj) n v p (some obj) = some c → NonnegColor c) :
    ∀ c1, reflStage material lights normal viewDir point objects recur = some c1 →
      NonnegColor c1 := by
  intro c1 h
  have hamb : NonnegColor (ambientInit material lights) := nonneg_ambientInit hm hne hl
  simp only [reflStage] at h
  split_ifs at h with hf
  · split at h
    · rename_i obj ipt heq
      rw [Option.map_eq_some'] at h
      obtain ⟨rc, hrc, hmap⟩ := h
      have hnn := hrec obj (hitOf_mem heq) _ _ _ _ hrc
      exact hmap ▸ nonneg_addColor hamb (nonneg_scaleColor hnn (le_of_lt hf))
    · cases h
      exact hamb
  · cases h
    exact hamb

/-- The refraction step of the refractive branch preserves
non-negativity (background miss included). -/
lemma nonneg_refrStage {material : Material} {normal viewDir point : Vec3}
    {objects : List Object}
    {recur : Material → Vec3 → Vec3 → Vec3 → Option Object → Option Color} {c1 : Color}
    (hm : MaterialOK material)
    (hrec : ∀ obj ∈ objects, ∀ n v p c,
      recur (objMaterial obj) n v p (some obj) = some c → NonnegColor c)
    (hc1 : NonnegColor c1) :
    ∀ c2, refrStage material normal viewDir point objects recur c1 = some c2 →
      NonnegColor c2 := by
  intro c2 h
  have htr : 0 ≤ material.transparency := hm.2.2.2.2.2.1
  simp only [refrStage] at h
  split_ifs at h with hf
  · rw [Option.bind_eq_some] at h
    obtain ⟨rd, _, h⟩ := h
    split at h
    · rename_i obj ipt heq
      rw [Option.map_eq_some'] at h
      obtain ⟨rc, hrc, hmap⟩ := h
      have hnn := hrec obj (hitOf_mem heq) _ _ _ _ hrc
      exact hmap ▸ nonneg_addColor hc1
        (nonneg_scaleColor hnn (mul_nonneg htr (le_of_lt hf)))
    · cases h
      exact nonneg_addColor hc1
        (nonneg_scaleColor nonneg_backgroundColor (mul_nonneg htr (le_of_lt hf)))
  · cases h
    exact hc1

/-- The reflection step of the opaque branch preserves
non-negativity. -/
lemma nonneg_opaqueReflStage {material : Material} {normal viewDir point : Vec3}
    {objects : List Object} {depth : ℕ}
    {recur : Material → Vec3 → Vec3 → Vec3 → Option Object → Option Color} {c1 : Color}
    (hrec : ∀ obj ∈ objects, ∀ n v p c,
      recur (objMaterial obj) n v p (some obj) = some c → NonnegColor c)
    (hc1 : NonnegColor c1) :
    ∀ c2, opaqueReflStage material normal viewDir point objects depth recur c1 = some c2 →
      NonnegColor c2 := by
  intro c2 h
  simp only [opaqueReflStage] at h
  split_ifs at h with hf
  · split at h
    · rename_i obj ipt heq
      rw [Option.map_eq_some'] at h
      obtain ⟨rc, hrc, hmap⟩ := h
      have hnn := hrec obj (hitOf_mem heq) _ _ _ _ hrc
      exact hmap ▸ nonneg_addColor hc1 (nonneg_scaleColor hnn (le_of_lt hf.1))
    · cases h
      exact hc1
  · cases h
    exact hc1

/-- The whole refractive branch is non-negative before the clamp. -/
lemma nonneg_refractiveShade {material : Material} {lights : List Light}
    {normal viewDir point : Vec3} {objects : List Object}
    {recur : Material → Vec3 → Vec3 → Vec3 → Option Object → Option Color}
    (hm : MaterialOK material) (hne : lights ≠ []) (hl : ∀ l ∈ lights, LightOK l)
    (hrec : ∀ obj ∈ objects, ∀ n v p c,
      recur (objMaterial obj) n v p (some obj) = some c → NonnegColor c) :
    ∀ c, refractiveShade material lights normal viewDir point objects recur = some c →
      NonnegColor c := by
  intro c h
  unfold refractiveShade at h
  rw [Option.bind_eq_some] at h
  obtain ⟨c1, h1, h2⟩ := h
  rw [Option.map_eq_some'] at h2
  obtain ⟨c2, hc2, hmap⟩ := h2
  have hn1 := nonneg_reflStage hm hne hl hrec c1 h1
  have hn2 := nonneg_refrStage hm hrec hn1 c2 hc2
  exact hmap ▸ nonneg_specStage hm hl hn2

/-- The whole opaque branch is non-negative before the clamp. -/
lemma nonneg_opaqueShade {material : Material} {lights : List Light}
    {normal viewDir point : Vec3} {objects : List Object} {currentObject : Option Object}
    {depth : ℕ}
    {recur : Material → Vec3 → Vec3 → Vec3 → Option Object → Option Color}
    (hm : MaterialOK material) (hne : lights ≠ []) (hl : ∀ l ∈ lights, LightOK l)
    (hrec : ∀ obj ∈ objects, ∀ n v p c,
      recur (objMaterial obj) n v p (some obj) = some c → NonnegColor c) :
    ∀ c, opaqueShade material lights normal viewDir point objects currentObject depth recur =
      some c → NonnegColor c := by
  intro c h
  unfold opaqueShade at h
  exact nonneg_opaqueReflStage hrec
    (nonneg_shadowedLightsFold hm hl (nonneg_ambientInit hm hne hl)) c h

/-- Induction on the remaining recursion budget `6 - depth`: every
color the shading engine returns (for well-formed materials and
lights) has all channels in `[0, 1]`. -/
lemma phong_in_unit_interval_aux :
    ∀ (n depth : ℕ), 6 - depth ≤ n →
    ∀ (material : Material) (lights : List Light) (normal viewDir point : Vec3)
      (objects : List Object) (currentObject : Option Object),
      lights ≠ [] → (∀ l ∈ lights, LightOK l) → MaterialOK material →
      (∀ o ∈ objects, MaterialOK (objMaterial o)) →
      ∀ c, calculatePhongLighting material lights normal viewDir point objects currentObject
        depth = some c → InUnitInterval c := by
  intro n
  induction n with
  | zero =>
    intro depth hn material lights normal viewDir point objects currentObject _ _ _ _ c h
    rw [calculatePhongLighting_depth_gt (by omega)] at h
    cases h
    refine ⟨?_, ?_, ?_⟩ <;> norm_num
  | succ n ih =>
    intro depth hn material lights normal viewDir point objects currentObject hne hl hm hobjs c h
    by_cases hd : 5 < depth
    · rw [calculatePhongLighting_depth_gt hd] at h
      cases h
      refine ⟨?_, ?_, ?_⟩ <;> norm_num
    · rw [calculatePhongLighting] at h
      rw [dif_neg hd] at h
      rw [Option.map_eq_some'] at h
      obtain ⟨c0, hc0, rfl⟩ := h
      have hrec : ∀ obj ∈ objects, ∀ nv vv pv cc,
          calculatePhongLighting (objMaterial obj) lights nv vv pv objects (some obj)
            (depth + 1) = some cc → NonnegColor cc := by
        intro obj hmem nv vv pv cc hcc
        have := ih (depth + 1) (by omega) (objMaterial obj) lights nv vv pv objects
          (some obj) hne hl (hobjs obj hmem) hobjs cc hcc
        exact ⟨this.1.1, this.2.1.1, this.2.2.1⟩
      by_cases hb : material.isRefractive = true ∧ 0 < material.transparency
      · rw [if_pos hb] at hc0
        exact clampColor_unit (nonneg_refractiveShade hm hne hl hrec c0 hc0)
      · rw [if_neg hb] at hc0
        exact clampColor_unit (nonneg_opaqueShade hm hne hl hrec c0 hc0)

/-- C4: for a non-empty light list, a well-formed material
(non-negative components, reflectivity and transparency in `[0,1]`,
positive shininess), well-formed lights, and well-formed materials on
every scene object, every channel of any color the shading engine
returns lies in `[0, 1]`: the finalization clamps each channel above
at 1 and every contributing term is non-negative, so no lower clamp is
needed. -/
theorem phong_in_unit_interval (material : Material) (lights : List Light)
    (normal viewDir point : Vec3) (objects : List Object) (currentObject : Option Object)
    (depth : ℕ)
    (hne : lights ≠ []) (hl : ∀ l ∈ lights, LightOK l) (hm : MaterialOK material)
    (hobjs : ∀ o ∈ objects, MaterialOK (objMaterial o)) :
    ∀ c, calculatePhongLighting material lights normal viewDir point objects currentObject
      depth = some c → InUnitInterval c :=
  phong_in_unit_interval_aux (6 - depth) depth le_rfl material lights normal viewDir point
    objects currentObject hne hl hm hobjs

/-- Concrete evaluation of the shading engine: opaque gray material,
one light placed at the shaded point (so diffuse and specular vanish),
empty scene - only the ambient term `0.1 * 0.5 = 0.05` survives. -/
lemma phong_witness_eval :
    calculatePhongLighting wMat [wLight] ⟨0, 0, 1⟩ ⟨0, 0, 1⟩ ⟨0, 0, 0⟩ [] none 0 =
      some ⟨0.05, 0.05, 0.05⟩ := by
  rw [calculatePhongLighting]
  rw [dif_neg (by norm_num)]
  rw [if_neg (by simp [wMat])]
  have hfold : shadowedLightsFold wMat [wLight] ⟨0, 0, 1⟩ ⟨0, 0, 1⟩ ⟨0, 0, 0⟩ [] none
      (ambientInit wMat [wLight]) = ⟨0.05, 0.05, 0.05⟩ := by
    simp only [shadowedLightsFold, List.foldl_cons, List.foldl_nil, ambientInit,
      List.headI, wMat, wLight, normalize, subtract, dot, scale, calculateDiffuse,
      calculateSpecular, reflect, addColor, isInShadow, shadowScan]
    norm_num [Real.zero_rpow]
  unfold opaqueShade
  rw [hfold]
  unfold opaqueReflStage
  rw [if_neg (by norm_num [wMat])]
  simp only [Option.map_some', clampColor]
  norm_num [min_def]

/-- C4 witness: the concrete call returns `(0.05, 0.05, 0.05)` and its
channels lie in `[0, 1]`. -/
theorem phong_in_unit_interval_witness :
    calculatePhongLighting wMat [wLight] ⟨0, 0, 1⟩ ⟨0, 0, 1⟩ ⟨0, 0, 0⟩ [] none 0 =
      some ⟨0.05, 0.05, 0.05⟩ ∧ InUnitInterval ⟨0.05, 0.05, 0.05⟩ :=
  ⟨phong_witness_eval,
    phong_in_unit_interval wMat [wLight] ⟨0, 0, 1⟩ ⟨0, 0, 1⟩ ⟨0, 0, 0⟩ [] none 0
      (by simp)
      (by
        intro l hl
        simp only [List.mem_singleton] at hl
        subst hl
        refine ⟨⟨?_, ?_, ?_⟩, ⟨?_, ?_, ?_⟩, ?_, ?_, ?_⟩ <;> norm_num [wLight])
      (by
        refine ⟨⟨?_, ?_, ?_⟩, ⟨?_, ?_, ?_⟩, ⟨?_, ?_, ?_⟩, ?_, ?_, ?_, ?_, ?_⟩ <;>
          norm_num [wMat])
      (by simp)
      ⟨0.05, 0.05, 0.05⟩ phong_witness_eval⟩

end

end Raytrace
